import Mathlib

/-!
Shallow embedding of the valuation pipeline of `valuation_bancos.py`
(Bank-Valuation-why-ROE-alone-is-not-enough).

Modelling conventions, fixed throughout:

* Python/pandas float cells are modelled by `Fl`: an exact rational (`Fl.num`),
  `Fl.inf` / `Fl.ninf` (the IEEE infinities produced by numpy division by
  zero), or `Fl.nan` (the missing-value marker that `DataFrame.dropna`
  removes).  Finite float arithmetic is modelled exactly over `ℚ`; rounding is
  not modelled, and the negative zero is identified with zero (no input in
  this development produces `-0.0`).  numpy semantics: `x / 0 = ±inf` for
  `x ≠ 0`, `0 / 0 = nan`, and `nan` is absorbing.
* A pandas DataFrame is a Lean list of rows, in the frame's row order.
  `groupby`/`pivot_table` sort their keys ascending and produce one row per
  key; `merge` (default `how="inner"`) keeps the order of the left keys.
* Network fetches (CVM zips, BCB SELIC json, yfinance prices) are external
  collaborators: each downloader takes the fetched rows as an argument and
  models only the transformation the source applies to them.
* `DT_REFER` and the price dates enter the computations only through the
  calendar year (`.dt.year`) or the month (monthly resample), so records
  carry that component directly.
-/

/-- Fl is the value domain of a pandas float cell: an exact rational, one of
the two infinities, or NaN. -/
inductive Fl where
  | num (q : ℚ)
  | inf
  | ninf
  | nan
deriving DecidableEq, Repr

/-- Fl.isNaN mirrors the test `pandas.isna` applied to a float cell. -/
def Fl.isNaN : Fl → Bool
  | nan => true
  | _ => false

/-- Fl.neg is IEEE negation (used to define subtraction). -/
def Fl.neg : Fl → Fl
  | nan => nan
  | inf => ninf
  | ninf => inf
  | num a => num (-a)

/-- Fl.add is IEEE addition over the modelled domain: `nan` absorbs, opposite
infinities give `nan`, finite addition is exact. -/
def Fl.add : Fl → Fl → Fl
  | nan, _ => nan
  | num _, nan => nan
  | inf, nan => nan
  | ninf, nan => nan
  | num a, num b => num (a + b)
  | num _, inf => inf
  | num _, ninf => ninf
  | inf, num _ => inf
  | ninf, num _ => ninf
  | inf, inf => inf
  | inf, ninf => nan
  | ninf, inf => nan
  | ninf, ninf => ninf

/-- Fl.sub is IEEE subtraction, `a + (-b)` (exact for IEEE as well). -/
def Fl.sub (a b : Fl) : Fl := Fl.add a (Fl.neg b)

/-- Fl.mul is IEEE multiplication: `nan` absorbs, `0 * inf = nan`, signs as
usual. -/
def Fl.mul : Fl → Fl → Fl
  | nan, _ => nan
  | num _, nan => nan
  | inf, nan => nan
  | ninf, nan => nan
  | num a, num b => num (a * b)
  | num a, inf => if a = 0 then nan else if 0 < a then inf else ninf
  | num a, ninf => if a = 0 then nan else if 0 < a then ninf else inf
  | inf, num b => if b = 0 then nan else if 0 < b then inf else ninf
  | ninf, num b => if b = 0 then nan else if 0 < b then ninf else inf
  | inf, inf => inf
  | inf, ninf => ninf
  | ninf, inf => ninf
  | ninf, ninf => inf

/-- Fl.div is numpy division: division by zero of a nonzero numerator gives a
signed infinity, `0 / 0` gives `nan` (the zero here is `+0.0`; `-0.0` is not
modelled). -/
def Fl.div : Fl → Fl → Fl
  | nan, _ => nan
  | num _, nan => nan
  | inf, nan => nan
  | ninf, nan => nan
  | num a, num b =>
      if b = 0 then (if a = 0 then nan else if 0 < a then inf else ninf) else num (a / b)
  | num _, inf => num 0
  | num _, ninf => num 0
  | inf, num b => if 0 ≤ b then inf else ninf
  | ninf, num b => if 0 ≤ b then ninf else inf
  | inf, inf => nan
  | inf, ninf => nan
  | ninf, inf => nan
  | ninf, ninf => nan

/-- Fl.lt is the IEEE strict order: any comparison involving `nan` is false. -/
def Fl.lt : Fl → Fl → Bool
  | nan, _ => false
  | num _, nan => false
  | inf, nan => false
  | ninf, nan => false
  | num a, num b => decide (a < b)
  | num _, inf => true
  | num _, ninf => false
  | inf, num _ => false
  | ninf, num _ => true
  | inf, inf => false
  | inf, ninf => false
  | ninf, inf => true
  | ninf, ninf => false

/-- sufixosDe lists all suffixes of a character list (used for substring
search). -/
def sufixosDe : List Char → List (List Char)
  | [] => [[]]
  | c :: t => (c :: t) :: sufixosDe t

/-- containsCI models `Series.str.contains(pat, case=False)` for a pattern
without regex metacharacters: case-insensitive substring containment.
`Char.toLower` lowers only ASCII letters; the pattern used by the script,
"Lucro/Prejuízo", has its only non-ASCII letter already lowercase, so this
agrees with Python lowercasing on the inputs of interest. -/
def containsCI (s pat : String) : Bool :=
  (sufixosDe (s.data.map Char.toLower)).any fun t => (pat.data.map Char.toLower).isPrefixOf t

/-- anosDe is the sorted list of distinct keys of a grouping column, as
produced by `groupby(...)` / `pivot_table` (keys sorted ascending, one row
per key). -/
def anosDe (l : List α) (f : α → Int) : List Int :=
  ((l.map f).insertionSort (· ≤ ·)).dedup

/-- DreRec is one row of the CVM income-statement CSV (DRE), with the fields
the script reads: `CNPJ_CIA`, `DS_CONTA`, `ORDEM_EXERC`, the year of
`DT_REFER`, and `VL_CONTA` (stated in thousands). -/
structure DreRec where
  cnpjCia : String
  dsConta : String
  ordemExerc : String
  anoRefer : Int
  vlConta : ℚ
deriving DecidableEq, Repr

/-- BppRec is one row of the CVM balance-sheet CSV (BPP), with the fields the
script reads: `CNPJ_CIA`, `CD_CONTA`, `ORDEM_EXERC`, the year of `DT_REFER`,
and `VL_CONTA` (stated in thousands). -/
structure BppRec where
  cnpjCia : String
  cdConta : String
  ordemExerc : String
  anoRefer : Int
  vlConta : ℚ
deriving DecidableEq, Repr

/-- LucroRow is one row of the `extrair_lucro` output: (Ano, Lucro_Liquido). -/
structure LucroRow where
  ano : Int
  lucro : Fl
deriving DecidableEq, Repr

/-- PlRow is one row of the `extrair_pl` output: (Ano, PL_Controlador). -/
structure PlRow where
  ano : Int
  pl : Fl
deriving DecidableEq, Repr

/-- filtroLucro is the row filter of `extrair_lucro`: the entity's CNPJ, a
`DS_CONTA` containing "Lucro/Prejuízo" case-insensitively, and
`ORDEM_EXERC == "ÚLTIMO"`. -/
def filtroLucro (dre : List DreRec) (cnpj : String) : List DreRec :=
  dre.filter fun r =>
    r.cnpjCia == cnpj && containsCI r.dsConta "Lucro/Prejuízo" && r.ordemExerc == "ÚLTIMO"

/-- somaLucroAno is the year's `Lucro_Liquido` after `VL_CONTA * 1_000` and
`groupby("Ano").sum()`. -/
def somaLucroAno (l : List DreRec) (y : Int) : ℚ :=
  ((l.filter fun r => r.anoRefer == y).map fun r => r.vlConta * 1000).sum

/-- extrair_lucro models `extrair_lucro(dre, cnpj)`: filter the entity's
final-version net-income rows, scale thousands to base units, sum per
`DT_REFER` year, sorted by year. -/
def extrair_lucro (dre : List DreRec) (cnpj : String) : List LucroRow :=
  (anosDe (filtroLucro dre cnpj) (fun r => r.anoRefer)).map fun y =>
    ⟨y, Fl.num (somaLucroAno (filtroLucro dre cnpj) y)⟩

/-- filtroPl is the row filter of `extrair_pl`: the entity's CNPJ, account
code `2.08` (total equity) or `2.08.09` (non-controlling interests), and
`ORDEM_EXERC == "ÚLTIMO"`. -/
def filtroPl (bpp : List BppRec) (cnpj : String) : List BppRec :=
  bpp.filter fun r =>
    r.cnpjCia == cnpj && (r.cdConta == "2.08" || r.cdConta == "2.08.09")
      && r.ordemExerc == "ÚLTIMO"

/-- temRegistro tells whether the filtered frame has a record for the given
year and account code (whether the pivot cell is populated). -/
def temRegistro (l : List BppRec) (y : Int) (cd : String) : Bool :=
  l.any fun r => r.anoRefer == y && r.cdConta == cd

/-- temConta tells whether the pivot has the account code as a column at all
(some record with that code exists for the entity). -/
def temConta (l : List BppRec) (cd : String) : Bool :=
  l.any fun r => r.cdConta == cd

/-- somaPlAno is the pivot cell aggregate: sum of `VL_CONTA * 1_000` over the
year's records for the account code (`aggfunc="sum"`). -/
def somaPlAno (l : List BppRec) (y : Int) (cd : String) : ℚ :=
  ((l.filter fun r => r.anoRefer == y && r.cdConta == cd).map fun r => r.vlConta * 1000).sum

/-- celula is the pivot-table cell for (year, account code): the summed value
when records exist, `NaN` when the column exists but the year has no record
for it. -/
def celula (l : List BppRec) (y : Int) (cd : String) : Fl :=
  if temRegistro l y cd then Fl.num (somaPlAno l y cd) else Fl.nan

/-- coluna models `pivot.get(cd, pd.Series(0, index=pivot.index))`: the pivot
column when it exists, the all-zero series when no record with that account
code exists at all. -/
def coluna (l : List BppRec) (y : Int) (cd : String) : Fl :=
  if temConta l cd then celula l y cd else Fl.num 0

/-- extrair_pl models `extrair_pl(bpp, cnpj)`: filter the entity's
final-version equity rows, scale to base units, pivot by account code per
`DT_REFER` year, and set `PL_Controlador = col("2.08") - col("2.08.09")`,
sorted by year. -/
def extrair_pl (bpp : List BppRec) (cnpj : String) : List PlRow :=
  (anosDe (filtroPl bpp cnpj) (fun r => r.anoRefer)).map fun y =>
    ⟨y, Fl.sub (coluna (filtroPl bpp cnpj) y "2.08") (coluna (filtroPl bpp cnpj) y "2.08.09")⟩

/-- RoeRow is one row of the `calcular_roe` output: Ano, Lucro_Liquido,
PL_Controlador, PL_Inicial and ROE. -/
structure RoeRow where
  ano : Int
  lucro : Fl
  pl : Fl
  plInicial : Fl
  roe : Fl
deriving DecidableEq, Repr

/-- mergedRows models `pd.merge(df_lucro, df_pl, on="Ano", how="inner")`:
keep the left (income) rows whose year also appears in the equity table, in
left order, pairing each with that year's equity.  The extractors produce
year-unique tables, so the first match is the only match. -/
def mergedRows (lucro : List LucroRow) (pl : List PlRow) : List (Int × Fl × Fl) :=
  lucro.filterMap fun lr =>
    (pl.find? fun p => p.ano == lr.ano).map fun p => (lr.ano, lr.lucro, p.pl)

/-- withShift models `df["PL_Inicial"] = df["PL_Controlador"].shift(1)`
followed by `df["ROE"] = df["Lucro_Liquido"] / df["PL_Inicial"]`: each row
receives the PREVIOUS ROW's equity (NaN for the first row) and the
corresponding quotient. -/
def withShift : Fl → List (Int × Fl × Fl) → List RoeRow
  | _, [] => []
  | prev, (a, l, p) :: rest => ⟨a, l, p, prev, Fl.div l prev⟩ :: withShift p rest

/-- semNaN models the row predicate of `df.dropna()`: every (float) column of
the row is non-NaN.  The `Ano` column is integral and never NaN. -/
def semNaN (r : RoeRow) : Bool :=
  !r.lucro.isNaN && !r.pl.isNaN && !r.plInicial.isNaN && !r.roe.isNaN

/-- calcular_roe models `calcular_roe(df_lucro, df_pl)`: inner-merge on year,
shift the equity column by one row, divide, and drop rows containing NaN. -/
def calcular_roe (lucro : List LucroRow) (pl : List PlRow) : List RoeRow :=
  (withShift Fl.nan (mergedRows lucro pl)).filter semNaN

/-- anosJuntos is the year column of the inner merge of the two tables. -/
def anosJuntos (lucro : List LucroRow) (pl : List PlRow) : List Int :=
  (mergedRows lucro pl).map fun t => t.1

/-- Cotacao is one joint daily price row of the yfinance download for
[ticker, "^BVSP"]: the month of the date plus both closing prices.  Rows are
in date order; rows where either instrument has no quote are outside the
modelled domain (they would surface pandas NaN-propagation rules that no
claim here depends on). -/
structure Cotacao where
  mes : Int
  acao : ℚ
  ibov : ℚ
deriving DecidableEq, Repr

/-- resampleME models `precos.resample("ME").last()`: the last row of each
calendar month, months ascending. -/
def resampleME (cot : List Cotacao) : List Cotacao :=
  (anosDe cot (fun c => c.mes)).filterMap fun m => (cot.filter fun c => c.mes == m).getLast?

/-- retornosAlinhados models `mensais.pct_change().dropna()`: month-over-month
returns of both columns, the first (undefined) observation dropped, rows
paired by date.  Pairs are (stock return, index return). -/
def retornosAlinhados (cot : List Cotacao) : List (ℚ × ℚ) :=
  ((resampleME cot).zip (resampleME cot).tail).map fun uv =>
    (uv.2.acao / uv.1.acao - 1, uv.2.ibov / uv.1.ibov - 1)

/-- olsSlope is the slope on the market-return regressor of the OLS fit with
intercept, `sm.OLS(y, add_constant(x)).fit().params["IBOV"]`: the textbook
normal-equations slope when the design has full rank; statsmodels fits
through the Moore–Penrose pseudoinverse, which on a rank-deficient
(constant-regressor) design returns the minimum-norm solution, also written
out below.  No claim depends on the rank-deficient branch. -/
def olsSlope (pares : List (ℚ × ℚ)) : ℚ :=
  let n : ℚ := pares.length
  let sx := (pares.map fun p => p.2).sum
  let sy := (pares.map fun p => p.1).sum
  let sxx := (pares.map fun p => p.2 * p.2).sum
  let sxy := (pares.map fun p => p.2 * p.1).sum
  if n * sxx - sx * sx = 0 then sx * sy / (n * n + sx * sx)
  else (n * sxy - sx * sy) / (n * sxx - sx * sx)

/-- calcular_beta models `calcular_beta` on already-fetched joint daily
quotes: align monthly returns and regress the stock on the index.  An empty
aligned series makes numpy raise ("zero-size array to reduction operation"),
modelled as an `Except.error`; the script does not catch it anywhere. -/
def calcular_beta (cot : List Cotacao) : Except String ℚ :=
  if retornosAlinhados cot = [] then Except.error "zero-size array to reduction operation"
  else Except.ok (olsSlope (retornosAlinhados cot))

/-- RatePoint is one row of the BCB SELIC series: the calendar year of the
date and the daily rate `valor`, a percentage per day. -/
structure RatePoint where
  ano : Int
  valor : ℚ
deriving DecidableEq, Repr

/-- fatorAcumulado is `groupby("ano")["fator_diario"].prod()` for one year:
the product of the daily factors `1 + valor/100` over the year's rows. -/
def fatorAcumulado (pts : List RatePoint) (y : Int) : ℚ :=
  ((pts.filter fun p => p.ano == y).map fun p => 1 + p.valor / 100).foldr (· * ·) 1

/-- baixar_selic models the transformation of `baixar_selic` on the fetched
rate rows: one row per calendar year with the compounded annual rate,
product of daily factors minus one, years ascending. -/
def baixar_selic (pts : List RatePoint) : List (Int × Fl) :=
  (anosDe pts (fun p => p.ano)).map fun y => (y, Fl.num (fatorAcumulado pts y - 1))

/-- PricePoint is one row of the benchmark daily price series: the calendar
year of the date and the adjusted closing price, rows in date order. -/
structure PricePoint where
  ano : Int
  preco : ℚ
deriving DecidableEq, Repr

/-- firstPrice is `groupby("ano").agg(("Adj Close", "first"))`: the first
observed price of the year, in row (date) order. -/
def firstPrice (pts : List PricePoint) (y : Int) : Option ℚ :=
  ((pts.filter fun p => p.ano == y).head?).map fun p => p.preco

/-- lastPrice is `groupby("ano").agg(("Adj Close", "last"))`: the last
observed price of the year. -/
def lastPrice (pts : List PricePoint) (y : Int) : Option ℚ :=
  ((pts.filter fun p => p.ano == y).getLast?).map fun p => p.preco

/-- retornoAno is `preco_final / preco_inicial - 1` for one year of the
benchmark series (float division, so a zero first price gives ±inf or NaN). -/
def retornoAno (pts : List PricePoint) (y : Int) : Fl :=
  match firstPrice pts y, lastPrice pts y with
  | some f, some l => Fl.sub (Fl.div (Fl.num l) (Fl.num f)) (Fl.num 1)
  | _, _ => Fl.nan

/-- baixar_ibov_anual models the transformation of `baixar_ibov_anual` on the
fetched price rows: one row per calendar year with the first-to-last simple
return, years ascending. -/
def baixar_ibov_anual (pts : List PricePoint) : List (Int × Fl) :=
  (anosDe pts (fun p => p.ano)).map fun y => (y, retornoAno pts y)

/-- CapmRow is one row of the `calcular_capm` output, the columns the script
keeps: Ano, Lucro_Liquido, PL_Controlador, PL_Inicial, ROE, beta, Rf, Rm, Ke,
spread_valor. -/
structure CapmRow where
  ano : Int
  lucro : Fl
  pl : Fl
  plInicial : Fl
  roe : Fl
  beta : Fl
  rf : Fl
  rm : Fl
  ke : Fl
  spread : Fl
deriving DecidableEq, Repr

/-- calcular_capm models `calcular_capm(df_roe, df_selic, df_ibov, beta)`:
inner-merge the ROE table with the annual SELIC and IBOV tables on the year
(both year-unique, being groupby outputs), then
`Ke = Rf + beta * (Rm - Rf)` and `spread_valor = ROE - Ke`. -/
def calcular_capm (roeT : List RoeRow) (selic ibov : List (Int × Fl)) (beta : Fl) :
    List CapmRow :=
  roeT.filterMap fun r =>
    match selic.find? fun s => s.1 == r.ano, ibov.find? fun s => s.1 == r.ano with
    | some s, some m =>
        some ⟨r.ano, r.lucro, r.pl, r.plInicial, r.roe, beta, s.2, m.2,
          Fl.add s.2 (Fl.mul beta (Fl.sub m.2 s.2)),
          Fl.sub r.roe (Fl.add s.2 (Fl.mul beta (Fl.sub m.2 s.2)))⟩
    | _, _ => none

/-- Banco is one entry of the `BANCOS` configuration list. -/
structure Banco where
  nome : String
  ticker : String
  cnpj : String
deriving DecidableEq, Repr

/-- RunOutcome is the observable end of a `__main__` run: an uncaught
exception (`fatal`), the "[ERRO] Nenhum banco processado com sucesso." exit
that writes no spreadsheet (`semResultados`), or the spreadsheet written from
the accumulated per-entity tables (`planilha`). -/
inductive RunOutcome where
  | fatal (msg : String)
  | semResultados
  | planilha (resultados : List (String × List CapmRow))
deriving DecidableEq, Repr

/-- baixados models `baixar_dados_cvm`: the per-year disclosure oracle is
consulted for every requested year, unavailable years are skipped. -/
def baixados (disclosure : Int → Option (List DreRec × List BppRec)) (anos : List Int) :
    List (Int × List DreRec × List BppRec) :=
  anos.filterMap fun a => (disclosure a).map fun d => (a, d)

/-- anosOkDe is `anos_ok`: the years whose zip download succeeded (appended
regardless of the extracted tables being empty). -/
def anosOkDe (disclosure : Int → Option (List DreRec × List BppRec)) (anos : List Int) :
    List Int :=
  (baixados disclosure anos).map fun t => t.1

/-- dreTotalDe is `dre_total`: the concatenation of all fetched DRE tables. -/
def dreTotalDe (disclosure : Int → Option (List DreRec × List BppRec)) (anos : List Int) :
    List DreRec :=
  ((baixados disclosure anos).map fun t => t.2.1).flatten

/-- bppTotalDe is `bpp_total`: the concatenation of all fetched BPP tables. -/
def bppTotalDe (disclosure : Int → Option (List DreRec × List BppRec)) (anos : List Int) :
    List BppRec :=
  ((baixados disclosure anos).map fun t => t.2.2).flatten

/-- processar is the per-entity loop of `__main__`: an entity with an empty
ROE table is skipped with a warning; otherwise its beta is computed — an
exception there (`Except.error`) propagates uncaught and aborts the whole
loop — and `calcular_capm` is stored under the entity's name, even when it
produced zero rows. -/
def processar (dre : List DreRec) (bpp : List BppRec) (selic ibov : List (Int × Fl))
    (cotacoes : String → List Cotacao) : List Banco → Except String (List (String × List CapmRow))
  | [] => Except.ok []
  | b :: rest =>
    if calcular_roe (extrair_lucro dre b.cnpj) (extrair_pl bpp b.cnpj) = [] then
      processar dre bpp selic ibov cotacoes rest
    else
      match calcular_beta (cotacoes b.ticker) with
      | Except.error e => Except.error e
      | Except.ok beta =>
          (processar dre bpp selic ibov cotacoes rest).map fun rs =>
            (b.nome,
              calcular_capm (calcular_roe (extrair_lucro dre b.cnpj) (extrair_pl bpp b.cnpj))
                selic ibov (Fl.num beta)) :: rs

/-- mainRun is the `__main__` control flow over the external inputs: download
the CVM years (aborting with `RuntimeError` when none succeeded), build the
shared SELIC and IBOV annual tables, run the per-entity loop, and either
write the spreadsheet from a non-empty results map or end with the
"[ERRO]" message. -/
def mainRun (disclosure : Int → Option (List DreRec × List BppRec)) (anos : List Int)
    (selicPts : List RatePoint) (ibovPts : List PricePoint)
    (cotacoes : String → List Cotacao) (bancos : List Banco) : RunOutcome :=
  if anosOkDe disclosure anos = [] then
    RunOutcome.fatal "Nenhum ano da CVM foi baixado com sucesso."
  else
    match processar (dreTotalDe disclosure anos) (bppTotalDe disclosure anos)
        (baixar_selic selicPts) (baixar_ibov_anual ibovPts) cotacoes bancos with
    | Except.error e => RunOutcome.fatal e
    | Except.ok [] => RunOutcome.semResultados
    | Except.ok rs => RunOutcome.planilha rs

/-- bppNciParcial is the C4 counterexample batch: one entity with a
non-controlling-interest (2.08.09) record in 2020 but none in 2021. -/
def bppNciParcial : List BppRec :=
  [⟨"X", "2.08", "ÚLTIMO", 2020, 1000⟩, ⟨"X", "2.08.09", "ÚLTIMO", 2020, 50⟩,
   ⟨"X", "2.08", "ÚLTIMO", 2021, 1100⟩]

/-- dreTot is a small CVM income batch used by concrete run theorems: two
entities (CNPJs "CA" and "CB"), each with final net-income rows for 2020 and
2021. -/
def dreTot : List DreRec :=
  [⟨"CA", "Lucro/Prejuízo", "ÚLTIMO", 2020, 1⟩, ⟨"CA", "Lucro/Prejuízo", "ÚLTIMO", 2021, 2⟩,
   ⟨"CB", "Lucro/Prejuízo", "ÚLTIMO", 2020, 3⟩, ⟨"CB", "Lucro/Prejuízo", "ÚLTIMO", 2021, 4⟩]

/-- bppTot is the matching balance-sheet batch: total-equity (2.08) rows for
both entities and both years, no non-controlling interests. -/
def bppTot : List BppRec :=
  [⟨"CA", "2.08", "ÚLTIMO", 2020, 10⟩, ⟨"CA", "2.08", "ÚLTIMO", 2021, 20⟩,
   ⟨"CB", "2.08", "ÚLTIMO", 2020, 30⟩, ⟨"CB", "2.08", "ÚLTIMO", 2021, 40⟩]

/-- discAB is a disclosure oracle: the 2020 archive holds dreTot and bppTot,
every other year is unavailable. -/
def discAB : Int → Option (List DreRec × List BppRec) :=
  fun a => if a = 2020 then some (dreTot, bppTot) else none

/-- cotMes1 is a quote series with a single month: one month-end point, hence
zero aligned monthly returns. -/
def cotMes1 : List Cotacao := [⟨1, 100, 100⟩]

/-- cotTres is a three-month quote series with the stock equal to the index,
giving two aligned monthly returns with distinct index values. -/
def cotTres : List Cotacao := [⟨1, 100, 100⟩, ⟨2, 200, 200⟩, ⟨3, 300, 300⟩]

/-- cotPorTicker is the price source of the concrete runs: ticker "TA" has a
single month of quotes, every other ticker has three months. -/
def cotPorTicker : String → List Cotacao :=
  fun t => if t = "TA" then cotMes1 else cotTres

/-! ## Helper lemmas -/

/-- A strict inequality against zero of an IEEE difference agrees with the
direct comparison, in every case including infinities and NaN. -/
theorem Fl.lt_zero_sub (a b : Fl) : Fl.lt (Fl.num 0) (Fl.sub a b) = Fl.lt b a := by
  cases a <;> cases b <;> simp [Fl.sub, Fl.add, Fl.neg, Fl.lt]

/-- Membership in the sorted-unique key list is membership in the key column. -/
theorem mem_anosDe (l : List α) (f : α → Int) (y : Int) :
    y ∈ anosDe l f ↔ ∃ x ∈ l, f x = y := by
  rw [anosDe, List.mem_dedup, (List.perm_insertionSort _ _).mem_iff, List.mem_map]

/-- Every element of a shifted frame is either the first row paired with the
initial previous value, or a pair of consecutive merged rows. -/
theorem withShift_mem (ms : List (Int × Fl × Fl)) (prev : Fl) (r : RoeRow)
    (h : r ∈ withShift prev ms) :
    (∃ u ∈ ms, ms.head? = some u ∧ r = ⟨u.1, u.2.1, u.2.2, prev, Fl.div u.2.1 prev⟩) ∨
    (∃ uv ∈ ms.zip ms.tail,
      r = ⟨uv.2.1, uv.2.2.1, uv.2.2.2, uv.1.2.2, Fl.div uv.2.2.1 uv.1.2.2⟩) := by
  induction ms generalizing prev with
  | nil => simp [withShift] at h
  | cons x rest ih =>
    obtain ⟨a, l, p⟩ := x
    rw [withShift] at h
    rcases List.mem_cons.mp h with h1 | h2
    · exact Or.inl ⟨(a, l, p), List.mem_cons_self _ _, rfl, h1⟩
    · rcases ih p h2 with ⟨u, hu, hh, hr⟩ | ⟨uv, huv, hr⟩
      · right
        refine ⟨((a, l, p), u), ?_, hr⟩
        cases rest with
        | nil => simp at hh
        | cons y t =>
          rw [List.head?_cons] at hh
          rw [List.tail_cons, List.zip_cons_cons, ← Option.some_inj.mp hh]
          exact List.mem_cons_self _ _
      · right
        refine ⟨uv, ?_, hr⟩
        cases rest with
        | nil => simp at huv
        | cons y t =>
          rw [List.tail_cons, List.zip_cons_cons]
          rw [List.tail_cons] at huv
          exact List.mem_cons_of_mem _ huv

/-- Adjacent entries of a strictly increasing integer list are increasing. -/
theorem adj_lt_of_pairwise (ys : List Int) (hp : ys.Pairwise (· < ·)) (u v : Int)
    (h : (u, v) ∈ ys.zip ys.tail) : u < v := by
  induction ys with
  | nil => simp at h
  | cons x t ih =>
    cases t with
    | nil => simp at h
    | cons y s =>
      rw [List.tail_cons, List.zip_cons_cons] at h
      rcases List.mem_cons.mp h with h1 | h2
      · injection h1 with h1a h1b
        subst h1a; subst h1b
        exact (List.pairwise_cons.mp hp).1 v (List.mem_cons_self _ _)
      · exact ih hp.of_cons (by rw [List.tail_cons]; exact h2)

/-- In a strictly increasing integer list, the left entry of an adjacent pair
is the greatest element below the right entry. -/
theorem adj_max_of_pairwise (ys : List Int) (hp : ys.Pairwise (· < ·)) (u v : Int)
    (h : (u, v) ∈ ys.zip ys.tail) : ∀ a ∈ ys, a < v → a ≤ u := by
  induction ys with
  | nil => simp at h
  | cons x t ih =>
    cases t with
    | nil => simp at h
    | cons y s =>
      intro a ha hav
      rw [List.tail_cons, List.zip_cons_cons] at h
      rcases List.mem_cons.mp h with h1 | h2
      · injection h1 with h1a h1b
        subst h1a; subst h1b
        rcases List.mem_cons.mp ha with rfl | ha2
        · exact le_refl _
        · rcases List.mem_cons.mp ha2 with rfl | ha3
          · exact absurd hav (lt_irrefl _)
          · have hya : v < a := (List.pairwise_cons.mp hp.of_cons).1 a ha3
            omega
      · rcases List.mem_cons.mp ha with rfl | ha2
        · have hu : u ∈ y :: s := (List.of_mem_zip h2).1
          have : a < u := (List.pairwise_cons.mp hp).1 u hu
          omega
        · exact ih hp.of_cons (by rw [List.tail_cons]; exact h2) a ha2 hav

/-- Adjacency of rows transfers to adjacency of their images. -/
theorem mem_zip_tail_map (f : α → β) (ms : List α) (u v : α)
    (h : (u, v) ∈ ms.zip ms.tail) : (f u, f v) ∈ (ms.map f).zip ((ms.map f).tail) := by
  induction ms with
  | nil => simp at h
  | cons x t ih =>
    cases t with
    | nil => simp at h
    | cons y s =>
      rw [List.tail_cons, List.zip_cons_cons] at h
      rw [List.map_cons, List.map_cons, List.tail_cons, List.zip_cons_cons]
      rcases List.mem_cons.mp h with h1 | h2
      · injection h1 with h1a h1b
        subst h1a; subst h1b
        exact List.mem_cons_self _ _
      · refine List.mem_cons_of_mem _ ?_
        have := ih (by rw [List.tail_cons]; exact h2)
        rwa [List.map_cons, List.tail_cons] at this

/-- Every merged row pairs a net-income row with the equity row of the same
year. -/
theorem mergedRows_mem (lucro : List LucroRow) (pl : List PlRow) (t : Int × Fl × Fl)
    (h : t ∈ mergedRows lucro pl) :
    (∃ lr ∈ lucro, lr.ano = t.1 ∧ lr.lucro = t.2.1) ∧
    (∃ pr ∈ pl, pr.ano = t.1 ∧ pr.pl = t.2.2) := by
  rw [mergedRows, List.mem_filterMap] at h
  obtain ⟨lr, hlr, hmk⟩ := h
  cases hf : pl.find? fun p => p.ano == lr.ano with
  | none => rw [hf] at hmk; simp at hmk
  | some p =>
    rw [hf] at hmk
    simp only [Option.map_some', Option.some_inj] at hmk
    have hp : p ∈ pl := List.mem_of_find?_eq_some hf
    have hpy : p.ano = lr.ano := by simpa using List.find?_some hf
    subst hmk
    exact ⟨⟨lr, hlr, rfl, rfl⟩, ⟨p, hp, hpy, rfl⟩⟩

/-- The year column of the merge is a sublist of the income table's years. -/
theorem mergedRows_anos_sublist (lucro : List LucroRow) (pl : List PlRow) :
    List.Sublist (anosJuntos lucro pl) (lucro.map fun lr => lr.ano) := by
  induction lucro with
  | nil => simp [anosJuntos, mergedRows]
  | cons x t ih =>
    rw [anosJuntos, mergedRows, List.filterMap_cons, List.map_cons]
    cases hf : pl.find? fun p => p.ano == x.ano with
    | none =>
      simp only [hf, Option.map_none']
      exact List.Sublist.cons _ ih
    | some p =>
      simp only [hf, Option.map_some']
      rw [List.map_cons]
      exact List.Sublist.cons₂ _ ih

/-! ## Claim theorems -/

/-- Claim C3: for every output row of the valuation calculator,
Ke = Rf + beta * (Rm - Rf) and spread = ROE - Ke hold exactly, and
spread > 0 if and only if ROE > Ke. -/
theorem calcular_capm_formulas (roeT : List RoeRow) (selic ibov : List (Int × Fl))
    (beta : Fl) (row : CapmRow) (h : row ∈ calcular_capm roeT selic ibov beta) :
    row.ke = Fl.add row.rf (Fl.mul row.beta (Fl.sub row.rm row.rf)) ∧
    row.spread = Fl.sub row.roe row.ke ∧
    (Fl.lt (Fl.num 0) row.spread = true ↔ Fl.lt row.ke row.roe = true) := by
  rw [calcular_capm, List.mem_filterMap] at h
  obtain ⟨r, hr, hmk⟩ := h
  cases hs : selic.find? fun s => s.1 == r.ano with
  | none => rw [hs] at hmk; simp at hmk
  | some s =>
    cases hm : ibov.find? fun s => s.1 == r.ano with
    | none => rw [hs, hm] at hmk; simp at hmk
    | some m =>
      rw [hs, hm] at hmk
      simp only [Option.some_inj] at hmk
      subst hmk
      refine ⟨rfl, rfl, ?_⟩
      rw [Fl.lt_zero_sub]

/-- Witness for C3 at the concrete 2022 row of the end-to-end scenario. -/
theorem calcular_capm_formulas_wit :
    ((⟨2022, Fl.num 120, Fl.num 1200, Fl.num 1100, Fl.num (6/55), Fl.num (6/5),
        Fl.num (1/20), Fl.num (3/20), Fl.num (17/100), Fl.num (6/55 - 17/100)⟩ : CapmRow) ∈
      calcular_capm [⟨2022, Fl.num 120, Fl.num 1200, Fl.num 1100, Fl.num (6/55)⟩]
        [(2022, Fl.num (1/20))] [(2022, Fl.num (3/20))] (Fl.num (6/5))) ∧
    (Fl.num (17/100)
        = Fl.add (Fl.num (1/20)) (Fl.mul (Fl.num (6/5)) (Fl.sub (Fl.num (3/20)) (Fl.num (1/20)))) ∧
      Fl.num (6/55 - 17/100) = Fl.sub (Fl.num (6/55)) (Fl.num (17/100)) ∧
      (Fl.lt (Fl.num 0) (Fl.num (6/55 - 17/100)) = true
        ↔ Fl.lt (Fl.num (17/100)) (Fl.num (6/55)) = true)) := by
  have hmem : ((⟨2022, Fl.num 120, Fl.num 1200, Fl.num 1100, Fl.num (6/55), Fl.num (6/5),
      Fl.num (1/20), Fl.num (3/20), Fl.num (17/100), Fl.num (6/55 - 17/100)⟩ : CapmRow) ∈
      calcular_capm [⟨2022, Fl.num 120, Fl.num 1200, Fl.num 1100, Fl.num (6/55)⟩]
        [(2022, Fl.num (1/20))] [(2022, Fl.num (3/20))] (Fl.num (6/5))) := by
    norm_num [calcular_capm, List.find?, Fl.add, Fl.mul, Fl.sub, Fl.neg]
  exact ⟨hmem, calcular_capm_formulas _ _ _ _ _ hmem⟩

/-- Claim C1 counterexample: with net income reported for 2019 and 2021 and
controlling equity reported for 2019 and 2021 only, the year 2021 — whose
prior-calendar-year (2020) equity is unavailable — still appears in the ROE
output, and its ROE is net income divided by the 2019 equity, not by
controlling_equity(2020). -/
theorem calcular_roe_ano_anterior_cex :
    calcular_roe [⟨2019, Fl.num 10⟩, ⟨2021, Fl.num 20⟩]
        [⟨2019, Fl.num 100⟩, ⟨2021, Fl.num 200⟩]
      = [⟨2021, Fl.num 20, Fl.num 200, Fl.num 100, Fl.num (1/5)⟩] ∧
    (([⟨2019, Fl.num 100⟩, ⟨2021, Fl.num 200⟩] : List PlRow).find? fun p => p.ano == 2020)
      = none := by
  constructor
  · norm_num [calcular_roe, mergedRows, withShift, semNaN, List.find?, Fl.div, Fl.isNaN,
      List.filterMap, List.filter]
  · rfl

/-- Claim C1, amended: for year-sorted inputs, every output row of
`calcular_roe` satisfies ROE = net_income(year) / equity(p) where p is the
previous year present in BOTH input tables (the preceding row of the inner
join) — not necessarily year - 1 — and every output row has such a strictly
smaller joined year, so the earliest joined year never appears in the
output.  When the joined years are contiguous, p = year - 1 and the original
claim is recovered. -/
theorem calcular_roe_ano_juntado_anterior (lucro : List LucroRow) (pl : List PlRow)
    (hl : (lucro.map fun lr => lr.ano).Pairwise (· < ·)) (r : RoeRow)
    (hr : r ∈ calcular_roe lucro pl) :
    r.roe = Fl.div r.lucro r.plInicial ∧
    (∃ lr ∈ lucro, lr.ano = r.ano ∧ lr.lucro = r.lucro) ∧
    (∃ pr ∈ pl, pr.ano = r.ano ∧ pr.pl = r.pl) ∧
    ∃ p, p ∈ anosJuntos lucro pl ∧ p < r.ano ∧
      (∃ q ∈ pl, q.ano = p ∧ q.pl = r.plInicial) ∧
      ∀ a ∈ anosJuntos lucro pl, a < r.ano → a ≤ p := by
  rw [calcular_roe, List.mem_filter] at hr
  obtain ⟨hmem, hnn⟩ := hr
  have hpw : (anosJuntos lucro pl).Pairwise (· < ·) :=
    List.Pairwise.sublist (mergedRows_anos_sublist lucro pl) hl
  rcases withShift_mem _ _ _ hmem with ⟨u, hu, hh, hreq⟩ | ⟨uv, huv, hreq⟩
  · subst hreq
    simp [semNaN, Fl.isNaN] at hnn
  · obtain ⟨u, v⟩ := uv
    subst hreq
    have humem : u ∈ mergedRows lucro pl := (List.of_mem_zip huv).1
    have hvmem : v ∈ mergedRows lucro pl := List.mem_of_mem_tail (List.of_mem_zip huv).2
    have hadj : (u.1, v.1) ∈ (anosJuntos lucro pl).zip (anosJuntos lucro pl).tail := by
      rw [anosJuntos]
      exact mem_zip_tail_map _ _ _ _ huv
    have hlt : u.1 < v.1 := adj_lt_of_pairwise _ hpw _ _ hadj
    obtain ⟨⟨lrv, hlrv, hlrv1, hlrv2⟩, prv, hprv, hprv1, hprv2⟩ := mergedRows_mem _ _ _ hvmem
    obtain ⟨-, pru, hpru, hpru1, hpru2⟩ := mergedRows_mem _ _ _ humem
    refine ⟨rfl, ⟨lrv, hlrv, hlrv1, hlrv2⟩, ⟨prv, hprv, hprv1, hprv2⟩, u.1,
      List.mem_map.mpr ⟨u, humem, rfl⟩, hlt, ⟨pru, hpru, hpru1, hpru2⟩, ?_⟩
    intro a ha hav
    exact adj_max_of_pairwise _ hpw _ _ hadj a ha hav

/-- Witness for C1-amended: at the gap input of the counterexample, the
surviving row for 2021 takes its equity-at-start from the previous joined
year 2019. -/
theorem calcular_roe_ano_juntado_anterior_wit :
    Fl.num (1/5) = Fl.div (Fl.num 20) (Fl.num 100) ∧
    (∃ lr ∈ ([⟨2019, Fl.num 10⟩, ⟨2021, Fl.num 20⟩] : List LucroRow),
      lr.ano = 2021 ∧ lr.lucro = Fl.num 20) ∧
    (∃ pr ∈ ([⟨2019, Fl.num 100⟩, ⟨2021, Fl.num 200⟩] : List PlRow),
      pr.ano = 2021 ∧ pr.pl = Fl.num 200) ∧
    ∃ p, p ∈ anosJuntos [⟨2019, Fl.num 10⟩, ⟨2021, Fl.num 20⟩]
        [⟨2019, Fl.num 100⟩, ⟨2021, Fl.num 200⟩] ∧ p < 2021 ∧
      (∃ q ∈ ([⟨2019, Fl.num 100⟩, ⟨2021, Fl.num 200⟩] : List PlRow),
        q.ano = p ∧ q.pl = Fl.num 100) ∧
      ∀ a ∈ anosJuntos [⟨2019, Fl.num 10⟩, ⟨2021, Fl.num 20⟩]
          [⟨2019, Fl.num 100⟩, ⟨2021, Fl.num 200⟩], a < 2021 → a ≤ p := by
  have hmem : (⟨2021, Fl.num 20, Fl.num 200, Fl.num 100, Fl.num (1/5)⟩ : RoeRow) ∈
      calcular_roe [⟨2019, Fl.num 10⟩, ⟨2021, Fl.num 20⟩]
        [⟨2019, Fl.num 100⟩, ⟨2021, Fl.num 200⟩] := by
    norm_num [calcular_roe, mergedRows, withShift, semNaN, List.find?, Fl.div, Fl.isNaN,
      List.filterMap, List.filter]
  exact calcular_roe_ano_juntado_anterior _ _ (by decide) _ hmem

/-- Claim C6 counterexample: a prior-row equity of exactly zero makes
`Lucro_Liquido / PL_Inicial` equal +infinity, and `dropna()` keeps the row
(it only removes NaN), so the ROE output can contain a non-finite value. -/
theorem calcular_roe_inf_mantido_cex :
    calcular_roe [⟨2020, Fl.num 10⟩, ⟨2021, Fl.num 50⟩]
        [⟨2020, Fl.num 0⟩, ⟨2021, Fl.num 100⟩]
      = [⟨2021, Fl.num 50, Fl.num 100, Fl.num 0, Fl.inf⟩] := by
  norm_num [calcular_roe, mergedRows, withShift, semNaN, List.find?, Fl.div, Fl.isNaN,
    List.filterMap, List.filter]

/-- Claim C6, amended: no output row of `calcular_roe` carries NaN in any
column — rows with an unavailable equity-at-start, or a 0/0 division, are
dropped — but an infinite ROE (nonzero income over zero equity) survives, as
the counterexample shows. -/
theorem calcular_roe_sem_nan (lucro : List LucroRow) (pl : List PlRow) (r : RoeRow)
    (h : r ∈ calcular_roe lucro pl) :
    r.roe.isNaN = false ∧ r.plInicial.isNaN = false ∧
    r.lucro.isNaN = false ∧ r.pl.isNaN = false := by
  rw [calcular_roe, List.mem_filter] at h
  have h2 := h.2
  rw [semNaN] at h2
  simp only [Bool.and_eq_true, Bool.not_eq_true'] at h2
  exact ⟨h2.2, h2.1.2, h2.1.1.1, h2.1.1.2⟩

/-- Witness for C6-amended at a concrete surviving row. -/
theorem calcular_roe_sem_nan_wit :
    Fl.isNaN (Fl.num (1/2)) = false ∧ Fl.isNaN (Fl.num 4) = false ∧
    Fl.isNaN (Fl.num 2) = false ∧ Fl.isNaN (Fl.num 5) = false := by
  have hmem : (⟨2, Fl.num 2, Fl.num 5, Fl.num 4, Fl.num (1/2)⟩ : RoeRow) ∈
      calcular_roe [⟨1, Fl.num 1⟩, ⟨2, Fl.num 2⟩] [⟨1, Fl.num 4⟩, ⟨2, Fl.num 5⟩] := by
    norm_num [calcular_roe, mergedRows, withShift, semNaN, List.find?, Fl.div, Fl.isNaN,
      List.filterMap, List.filter]
  exact calcular_roe_sem_nan _ _ _ hmem

/-- Claim C2 counterexample: at the spec's end-to-end input the ROE stage
produces no row for 2021 at all — the inner join drops the 2020 equity row
(no 2021-less income year), and the positional shift then removes 2021 as
the first joined row — contradicting the claimed ROE(2021) = 10%. -/
theorem cenario_roe_2021_ausente_cex :
    (calcular_roe [⟨2021, Fl.num 100⟩, ⟨2022, Fl.num 120⟩]
        [⟨2020, Fl.num 1000⟩, ⟨2021, Fl.num 1100⟩, ⟨2022, Fl.num 1200⟩]).map
        (fun r => r.ano)
      = [2022] := by
  norm_num [calcular_roe, mergedRows, withShift, semNaN, List.find?, Fl.div, Fl.isNaN,
    List.filterMap, List.filter]

/-- Claim C2, amended: at the end-to-end input the ROE stage produces exactly
one row, for 2022, with ROE = 120/1100 (about 10.91%); the 2021 row is
dropped by construction.  With beta = 1.2, Rf(2022) = 5% and Rm(2022) = 15%,
the valuation stage yields Ke(2022) = 17% and
spread(2022) = 120/1100 - 17% = -67/1100 (about -6.09%). -/
theorem cenario_roe_capm_2022 :
    calcular_roe [⟨2021, Fl.num 100⟩, ⟨2022, Fl.num 120⟩]
        [⟨2020, Fl.num 1000⟩, ⟨2021, Fl.num 1100⟩, ⟨2022, Fl.num 1200⟩]
      = [⟨2022, Fl.num 120, Fl.num 1200, Fl.num 1100, Fl.num (6/55)⟩] ∧
    calcular_capm
        (calcular_roe [⟨2021, Fl.num 100⟩, ⟨2022, Fl.num 120⟩]
          [⟨2020, Fl.num 1000⟩, ⟨2021, Fl.num 1100⟩, ⟨2022, Fl.num 1200⟩])
        [(2022, Fl.num (1/20))] [(2022, Fl.num (3/20))] (Fl.num (6/5))
      = [⟨2022, Fl.num 120, Fl.num 1200, Fl.num 1100, Fl.num (6/55), Fl.num (6/5),
          Fl.num (1/20), Fl.num (3/20), Fl.num (17/100), Fl.num (-67/1100)⟩] := by
  have h1 : calcular_roe [⟨2021, Fl.num 100⟩, ⟨2022, Fl.num 120⟩]
      [⟨2020, Fl.num 1000⟩, ⟨2021, Fl.num 1100⟩, ⟨2022, Fl.num 1200⟩]
      = [⟨2022, Fl.num 120, Fl.num 1200, Fl.num 1100, Fl.num (6/55)⟩] := by
    norm_num [calcular_roe, mergedRows, withShift, semNaN, List.find?, Fl.div, Fl.isNaN,
      List.filterMap, List.filter]
  refine ⟨h1, ?_⟩
  rw [h1]
  norm_num [calcular_capm, List.find?, Fl.add, Fl.mul, Fl.sub, Fl.neg, List.filterMap]

/-- Claim C8: a constant daily rate, given as the percentage 100*r over
exactly n days of a single calendar year, is annualized by `baixar_selic` to
the effective rate (1+r)^n - 1 for that year. -/
theorem baixar_selic_taxa_constante (pts : List RatePoint) (y : Int) (r : ℚ)
    (hne : pts ≠ []) (hall : ∀ p ∈ pts, p.ano = y ∧ p.valor = 100 * r) :
    baixar_selic pts = [(y, Fl.num ((1 + r) ^ pts.length - 1))] := by
  have hanos : anosDe pts (fun p => p.ano) = [y] := by
    have hsub : ∀ a ∈ anosDe pts (fun p => p.ano), a = y := by
      intro a ha
      obtain ⟨x, hx, hxy⟩ := (mem_anosDe _ _ _).mp ha
      rw [← hxy]
      exact (hall x hx).1
    have hmem : y ∈ anosDe pts (fun p => p.ano) := by
      obtain ⟨x, hx⟩ := List.exists_mem_of_ne_nil pts hne
      exact (mem_anosDe _ _ _).mpr ⟨x, hx, (hall x hx).1⟩
    have hnd : (anosDe pts (fun p => p.ano)).Nodup := List.nodup_dedup _
    cases hl : anosDe pts fun p => p.ano with
    | nil => rw [hl] at hmem; simp at hmem
    | cons a t =>
      rw [hl] at hsub hmem hnd
      have ha : a = y := hsub a (List.mem_cons_self _ _)
      cases t with
      | nil => rw [ha]
      | cons b s =>
        have hb : b = y := hsub b (List.mem_cons_of_mem _ (List.mem_cons_self _ _))
        rw [List.nodup_cons] at hnd
        exact absurd (by rw [ha, hb]; exact List.mem_cons_self _ _) hnd.1
  have hfil : pts.filter (fun p => p.ano == y) = pts :=
    List.filter_eq_self.mpr fun p hp => by simp [(hall p hp).1]
  have hprod : fatorAcumulado pts y = (1 + r) ^ pts.length := by
    rw [fatorAcumulado, hfil]
    clear hanos hfil hne
    induction pts with
    | nil => simp
    | cons x t ih =>
      rw [List.map_cons, List.foldr_cons, List.length_cons]
      rw [ih fun p hp => hall p (List.mem_cons_of_mem _ hp)]
      rw [(hall x (List.mem_cons_self _ _)).2]
      rw [pow_succ]
      ring
  rw [baixar_selic, hanos, List.map_cons, List.map_nil, hprod]

/-- Witness for C8: two days at the daily rate 100% (r = 1) compound to
(1+1)^2 - 1 = 300% for the year. -/
theorem baixar_selic_taxa_constante_wit :
    baixar_selic [⟨2020, 100⟩, ⟨2020, 100⟩]
      = [(2020, Fl.num ((1 + 1) ^ 2 - 1))] := by
  have h := baixar_selic_taxa_constante [⟨2020, 100⟩, ⟨2020, 100⟩] 2020 1
    (by simp) (by norm_num)
  simpa using h

/-- Claim C10 counterexample: a year holding exactly one observed price can
still fail to yield a zero return — a zero price gives 0/0 - 1 = NaN, an
undefined value, not 0. -/
theorem baixar_ibov_preco_zero_cex :
    baixar_ibov_anual [⟨2020, 0⟩] = [(2020, Fl.nan)] ∧ Fl.nan ≠ Fl.num 0 := by
  constructor
  · rfl
  · decide

/-- Claim C10, amended: a calendar year containing exactly one observed price
point with a NONZERO price yields an annual market return of exactly 0 (the
first and last observed prices coincide); with a zero price the division
0/0 produces NaN instead, as the counterexample shows. -/
theorem baixar_ibov_ano_unico_zero (pts : List PricePoint) (y : Int) (p : PricePoint)
    (hfil : pts.filter (fun q => q.ano == y) = [p]) (hnz : p.preco ≠ 0) :
    (y, Fl.num 0) ∈ baixar_ibov_anual pts := by
  have hpmem : p ∈ pts.filter fun q => q.ano == y := by rw [hfil]; exact List.mem_cons_self _ _
  have hp : p ∈ pts := (List.mem_filter.mp hpmem).1
  have hpy : p.ano = y := by simpa using (List.mem_filter.mp hpmem).2
  have hy : y ∈ anosDe pts fun q => q.ano := (mem_anosDe _ _ _).mpr ⟨p, hp, hpy⟩
  have hret : retornoAno pts y = Fl.num 0 := by
    rw [retornoAno, firstPrice, lastPrice, hfil]
    simp only [List.head?_cons, List.getLast?_singleton, Option.map_some']
    rw [Fl.div]
    rw [if_neg hnz, div_self hnz]
    simp [Fl.sub, Fl.add, Fl.neg]
  rw [baixar_ibov_anual]
  exact List.mem_map.mpr ⟨y, hy, by rw [hret]⟩

/-- Witness for C10-amended: a single 2020 price of 100 yields return 0. -/
theorem baixar_ibov_ano_unico_zero_wit :
    (2020, Fl.num 0) ∈ baixar_ibov_anual [⟨2020, 100⟩] :=
  baixar_ibov_ano_unico_zero [⟨2020, 100⟩] 2020 ⟨2020, 100⟩ (by rfl) (by norm_num)

/-- Claim C4 counterexample: when the entity has a non-controlling-interest
record in SOME year (here 2020) but not in another (2021), the pivot cell
for the missing year is NaN, so PL_Controlador(2021) = 1,100,000 - NaN = NaN
— the missing non-controlling interest is NOT treated as zero for that
year. -/
theorem extrair_pl_nci_ausente_cex :
    extrair_pl bppNciParcial "X" = [⟨2020, Fl.num 950000⟩, ⟨2021, Fl.nan⟩] ∧
    Fl.nan ≠ Fl.num 1100000 := by
  constructor
  · have hanos : anosDe (filtroPl bppNciParcial "X") (fun r => r.anoRefer)
        = [2020, 2021] := by decide
    have hA : somaPlAno (filtroPl bppNciParcial "X") 2020 "2.08" = 1000000 := by
      rw [somaPlAno]
      rw [show (filtroPl bppNciParcial "X").filter
          (fun r => r.anoRefer == (2020 : Int) && r.cdConta == "2.08")
          = [⟨"X", "2.08", "ÚLTIMO", 2020, 1000⟩] from by decide]
      norm_num
    have hB : somaPlAno (filtroPl bppNciParcial "X") 2020 "2.08.09" = 50000 := by
      rw [somaPlAno]
      rw [show (filtroPl bppNciParcial "X").filter
          (fun r => r.anoRefer == (2020 : Int) && r.cdConta == "2.08.09")
          = [⟨"X", "2.08.09", "ÚLTIMO", 2020, 50⟩] from by decide]
      norm_num
    have hC : somaPlAno (filtroPl bppNciParcial "X") 2021 "2.08" = 1100000 := by
      rw [somaPlAno]
      rw [show (filtroPl bppNciParcial "X").filter
          (fun r => r.anoRefer == (2021 : Int) && r.cdConta == "2.08")
          = [⟨"X", "2.08", "ÚLTIMO", 2021, 1100⟩] from by decide]
      norm_num
    have c1 : coluna (filtroPl bppNciParcial "X") 2020 "2.08" = Fl.num 1000000 := by
      rw [coluna, if_pos (show temConta (filtroPl bppNciParcial "X") "2.08" = true
        from by decide), celula, if_pos (show temRegistro (filtroPl bppNciParcial "X")
        2020 "2.08" = true from by decide), hA]
    have c2 : coluna (filtroPl bppNciParcial "X") 2020 "2.08.09" = Fl.num 50000 := by
      rw [coluna, if_pos (show temConta (filtroPl bppNciParcial "X") "2.08.09" = true
        from by decide), celula, if_pos (show temRegistro (filtroPl bppNciParcial "X")
        2020 "2.08.09" = true from by decide), hB]
    have c3 : coluna (filtroPl bppNciParcial "X") 2021 "2.08" = Fl.num 1100000 := by
      rw [coluna, if_pos (show temConta (filtroPl bppNciParcial "X") "2.08" = true
        from by decide), celula, if_pos (show temRegistro (filtroPl bppNciParcial "X")
        2021 "2.08" = true from by decide), hC]
    have c4 : coluna (filtroPl bppNciParcial "X") 2021 "2.08.09" = Fl.nan := by
      rw [coluna, if_pos (show temConta (filtroPl bppNciParcial "X") "2.08.09" = true
        from by decide), celula, if_neg (show
        ¬ temRegistro (filtroPl bppNciParcial "X") 2021 "2.08.09" = true from by decide)]
    rw [extrair_pl, hanos, List.map_cons, List.map_cons, List.map_nil, c1, c2, c3, c4]
    norm_num [Fl.sub, Fl.add, Fl.neg]
  · decide

/-- Claim C4, amended: for a year with both a total-equity (2.08) and a
non-controlling-interest (2.08.09) record, PL_Controlador is their
difference; when the entity has NO 2.08.09 record in ANY year, the whole
column defaults to zero and PL_Controlador equals total equity; but a year
with a 2.08 record and no 2.08.09 record while other years have one gets
NaN (see the counterexample). -/
theorem extrair_pl_pl_controlador (bpp : List BppRec) (cnpj : String) (y : Int)
    (h208 : temRegistro (filtroPl bpp cnpj) y "2.08" = true) :
    (temRegistro (filtroPl bpp cnpj) y "2.08.09" = true →
      (⟨y, Fl.num (somaPlAno (filtroPl bpp cnpj) y "2.08"
          - somaPlAno (filtroPl bpp cnpj) y "2.08.09")⟩ : PlRow) ∈ extrair_pl bpp cnpj) ∧
    (temConta (filtroPl bpp cnpj) "2.08.09" = false →
      (⟨y, Fl.num (somaPlAno (filtroPl bpp cnpj) y "2.08")⟩ : PlRow)
        ∈ extrair_pl bpp cnpj) := by
  rw [temRegistro, List.any_eq_true] at h208
  obtain ⟨r, hr, hcond⟩ := h208
  rw [Bool.and_eq_true, beq_iff_eq, beq_iff_eq] at hcond
  have hy : y ∈ anosDe (filtroPl bpp cnpj) fun q => q.anoRefer :=
    (mem_anosDe _ _ _).mpr ⟨r, hr, hcond.1⟩
  have htr208 : temRegistro (filtroPl bpp cnpj) y "2.08" = true := by
    rw [temRegistro, List.any_eq_true]
    exact ⟨r, hr, by simp [hcond.1, hcond.2]⟩
  have htc208 : temConta (filtroPl bpp cnpj) "2.08" = true := by
    rw [temConta, List.any_eq_true]
    exact ⟨r, hr, by simp [hcond.2]⟩
  have hcol208 : coluna (filtroPl bpp cnpj) y "2.08"
      = Fl.num (somaPlAno (filtroPl bpp cnpj) y "2.08") := by
    rw [coluna, if_pos htc208, celula, if_pos htr208]
  constructor
  · intro h9
    have htc9 : temConta (filtroPl bpp cnpj) "2.08.09" = true := by
      rw [temRegistro, List.any_eq_true] at h9
      obtain ⟨s, hs, hscond⟩ := h9
      rw [Bool.and_eq_true, beq_iff_eq, beq_iff_eq] at hscond
      rw [temConta, List.any_eq_true]
      exact ⟨s, hs, by simp [hscond.2]⟩
    have hcol9 : coluna (filtroPl bpp cnpj) y "2.08.09"
        = Fl.num (somaPlAno (filtroPl bpp cnpj) y "2.08.09") := by
      rw [coluna, if_pos htc9, celula, if_pos h9]
    rw [extrair_pl]
    refine List.mem_map.mpr ⟨y, hy, ?_⟩
    rw [hcol208, hcol9]
    simp only [Fl.sub, Fl.add, Fl.neg, PlRow.mk.injEq, Fl.num.injEq]
    exact ⟨trivial, by ring⟩
  · intro h9f
    have hcol9 : coluna (filtroPl bpp cnpj) y "2.08.09" = Fl.num 0 := by
      rw [coluna, if_neg (by simp [h9f])]
    rw [extrair_pl]
    refine List.mem_map.mpr ⟨y, hy, ?_⟩
    rw [hcol208, hcol9]
    simp only [Fl.sub, Fl.add, Fl.neg, PlRow.mk.injEq, Fl.num.injEq]
    exact ⟨trivial, by ring⟩

/-- Witness for C4-amended: both branches at concrete inputs — the
both-records year 2020 of the counterexample data, and an entity with no
2.08.09 record at all. -/
theorem extrair_pl_pl_controlador_wit :
    ((⟨2020, Fl.num (somaPlAno (filtroPl bppNciParcial "X") 2020 "2.08"
        - somaPlAno (filtroPl bppNciParcial "X") 2020 "2.08.09")⟩ : PlRow)
      ∈ extrair_pl bppNciParcial "X") ∧
    ((⟨2020, Fl.num (somaPlAno (filtroPl [⟨"X", "2.08", "ÚLTIMO", 2020, 1000⟩] "X")
        2020 "2.08")⟩ : PlRow)
      ∈ extrair_pl [⟨"X", "2.08", "ÚLTIMO", 2020, 1000⟩] "X") :=
  ⟨(extrair_pl_pl_controlador _ "X" 2020 (by decide)).1 (by decide),
   (extrair_pl_pl_controlador _ "X" 2020 (by decide)).2 (by decide)⟩

/-- Claim C9: every output row of `baixar_ibov_anual` is
last observed price of the year / first observed price of the year - 1, and
the output is independent of intermediate prices: two series with the same
years and the same first and last observed price per year produce identical
annual returns. -/
theorem baixar_ibov_primeiro_ultimo (pts1 pts2 : List PricePoint)
    (hY : anosDe pts1 (fun p => p.ano) = anosDe pts2 (fun p => p.ano))
    (hF : ∀ y ∈ anosDe pts1 (fun p => p.ano), firstPrice pts1 y = firstPrice pts2 y)
    (hL : ∀ y ∈ anosDe pts1 (fun p => p.ano), lastPrice pts1 y = lastPrice pts2 y) :
    (∀ yr ∈ baixar_ibov_anual pts1, ∃ f g : ℚ, firstPrice pts1 yr.1 = some f ∧
      lastPrice pts1 yr.1 = some g ∧
      yr.2 = Fl.sub (Fl.div (Fl.num g) (Fl.num f)) (Fl.num 1)) ∧
    baixar_ibov_anual pts1 = baixar_ibov_anual pts2 := by
  constructor
  · intro yr hyr
    rw [baixar_ibov_anual] at hyr
    obtain ⟨y, hy, hmk⟩ := List.mem_map.mp hyr
    obtain ⟨x, hx, hxy⟩ := (mem_anosDe _ _ _).mp hy
    have hxf : x ∈ pts1.filter fun p => p.ano == y :=
      List.mem_filter.mpr ⟨hx, by simp [hxy]⟩
    subst hmk
    cases hfl : pts1.filter fun p => p.ano == y with
    | nil => rw [hfl] at hxf; simp at hxf
    | cons a t =>
      have hhead : (pts1.filter fun p => p.ano == y).head? = some a := by
        rw [hfl]; rfl
      obtain ⟨b, hb⟩ : ∃ b, (pts1.filter fun p => p.ano == y).getLast? = some b := by
        rw [hfl]
        exact ⟨(a :: t).getLast (by simp), List.getLast?_eq_getLast _ _⟩
      refine ⟨a.preco, b.preco, ?_, ?_, ?_⟩
      · rw [firstPrice, hhead, Option.map_some']
      · rw [lastPrice, hb, Option.map_some']
      · show retornoAno pts1 y = _
        rw [retornoAno, firstPrice, lastPrice, hhead, hb, Option.map_some', Option.map_some']
  · rw [baixar_ibov_anual, baixar_ibov_anual, ← hY]
    refine List.map_congr_left fun y hy => ?_
    have h1 := hF y hy
    have h2 := hL y hy
    rw [retornoAno, retornoAno, h1, h2]

/-- Witness for C9: dropping the intermediate 2020 price 50 leaves the annual
return table unchanged. -/
theorem baixar_ibov_primeiro_ultimo_wit :
    (∀ yr ∈ baixar_ibov_anual [⟨2020, 100⟩, ⟨2020, 50⟩, ⟨2020, 110⟩], ∃ f g : ℚ,
      firstPrice [⟨2020, 100⟩, ⟨2020, 50⟩, ⟨2020, 110⟩] yr.1 = some f ∧
      lastPrice [⟨2020, 100⟩, ⟨2020, 50⟩, ⟨2020, 110⟩] yr.1 = some g ∧
      yr.2 = Fl.sub (Fl.div (Fl.num g) (Fl.num f)) (Fl.num 1)) ∧
    baixar_ibov_anual [⟨2020, 100⟩, ⟨2020, 50⟩, ⟨2020, 110⟩]
      = baixar_ibov_anual [⟨2020, 100⟩, ⟨2020, 110⟩] :=
  baixar_ibov_primeiro_ultimo _ _ (by decide) (by decide) (by decide)

/-- Evaluation of the income extractor for entity CA of the concrete batch. -/
theorem lucroCAeval : extrair_lucro dreTot "CA" = [⟨2020, Fl.num 1000⟩, ⟨2021, Fl.num 2000⟩] := by
  have s1 : somaLucroAno (filtroLucro dreTot "CA") 2020 = 1000 := by
    rw [somaLucroAno]
    rw [show (filtroLucro dreTot "CA").filter (fun r => r.anoRefer == (2020 : Int))
      = [⟨"CA", "Lucro/Prejuízo", "ÚLTIMO", 2020, 1⟩] from by decide]
    norm_num
  have s2 : somaLucroAno (filtroLucro dreTot "CA") 2021 = 2000 := by
    rw [somaLucroAno]
    rw [show (filtroLucro dreTot "CA").filter (fun r => r.anoRefer == (2021 : Int))
      = [⟨"CA", "Lucro/Prejuízo", "ÚLTIMO", 2021, 2⟩] from by decide]
    norm_num
  rw [extrair_lucro]
  rw [show anosDe (filtroLucro dreTot "CA") (fun r => r.anoRefer) = [2020, 2021] from by decide]
  rw [List.map_cons, List.map_cons, List.map_nil, s1, s2]

/-- Evaluation of the income extractor for entity CB of the concrete batch. -/
theorem lucroCBeval : extrair_lucro dreTot "CB" = [⟨2020, Fl.num 3000⟩, ⟨2021, Fl.num 4000⟩] := by
  have s1 : somaLucroAno (filtroLucro dreTot "CB") 2020 = 3000 := by
    rw [somaLucroAno]
    rw [show (filtroLucro dreTot "CB").filter (fun r => r.anoRefer == (2020 : Int))
      = [⟨"CB", "Lucro/Prejuízo", "ÚLTIMO", 2020, 3⟩] from by decide]
    norm_num
  have s2 : somaLucroAno (filtroLucro dreTot "CB") 2021 = 4000 := by
    rw [somaLucroAno]
    rw [show (filtroLucro dreTot "CB").filter (fun r => r.anoRefer == (2021 : Int))
      = [⟨"CB", "Lucro/Prejuízo", "ÚLTIMO", 2021, 4⟩] from by decide]
    norm_num
  rw [extrair_lucro]
  rw [show anosDe (filtroLucro dreTot "CB") (fun r => r.anoRefer) = [2020, 2021] from by decide]
  rw [List.map_cons, List.map_cons, List.map_nil, s1, s2]

/-- Evaluation of the equity extractor for entity CA of the concrete batch. -/
theorem plCAeval : extrair_pl bppTot "CA" = [⟨2020, Fl.num 10000⟩, ⟨2021, Fl.num 20000⟩] := by
  have s1 : somaPlAno (filtroPl bppTot "CA") 2020 "2.08" = 10000 := by
    rw [somaPlAno]
    rw [show (filtroPl bppTot "CA").filter
        (fun r => r.anoRefer == (2020 : Int) && r.cdConta == "2.08")
      = [⟨"CA", "2.08", "ÚLTIMO", 2020, 10⟩] from by decide]
    norm_num
  have s2 : somaPlAno (filtroPl bppTot "CA") 2021 "2.08" = 20000 := by
    rw [somaPlAno]
    rw [show (filtroPl bppTot "CA").filter
        (fun r => r.anoRefer == (2021 : Int) && r.cdConta == "2.08")
      = [⟨"CA", "2.08", "ÚLTIMO", 2021, 20⟩] from by decide]
    norm_num
  have c1 : coluna (filtroPl bppTot "CA") 2020 "2.08" = Fl.num 10000 := by
    rw [coluna, if_pos (show temConta (filtroPl bppTot "CA") "2.08" = true from by decide),
      celula, if_pos (show temRegistro (filtroPl bppTot "CA") 2020 "2.08" = true
        from by decide), s1]
  have c2 : coluna (filtroPl bppTot "CA") 2021 "2.08" = Fl.num 20000 := by
    rw [coluna, if_pos (show temConta (filtroPl bppTot "CA") "2.08" = true from by decide),
      celula, if_pos (show temRegistro (filtroPl bppTot "CA") 2021 "2.08" = true
        from by decide), s2]
  have c9 : ∀ y : Int, coluna (filtroPl bppTot "CA") y "2.08.09" = Fl.num 0 := by
    intro y
    rw [coluna, if_neg (show ¬ temConta (filtroPl bppTot "CA") "2.08.09" = true from by decide)]
  rw [extrair_pl]
  rw [show anosDe (filtroPl bppTot "CA") (fun r => r.anoRefer) = [2020, 2021] from by decide]
  rw [List.map_cons, List.map_cons, List.map_nil, c1, c2, c9 2020, c9 2021]
  norm_num [Fl.sub, Fl.add, Fl.neg]

/-- Evaluation of the equity extractor for entity CB of the concrete batch. -/
theorem plCBeval : extrair_pl bppTot "CB" = [⟨2020, Fl.num 30000⟩, ⟨2021, Fl.num 40000⟩] := by
  have s1 : somaPlAno (filtroPl bppTot "CB") 2020 "2.08" = 30000 := by
    rw [somaPlAno]
    rw [show (filtroPl bppTot "CB").filter
        (fun r => r.anoRefer == (2020 : Int) && r.cdConta == "2.08")
      = [⟨"CB", "2.08", "ÚLTIMO", 2020, 30⟩] from by decide]
    norm_num
  have s2 : somaPlAno (filtroPl bppTot "CB") 2021 "2.08" = 40000 := by
    rw [somaPlAno]
    rw [show (filtroPl bppTot "CB").filter
        (fun r => r.anoRefer == (2021 : Int) && r.cdConta == "2.08")
      = [⟨"CB", "2.08", "ÚLTIMO", 2021, 40⟩] from by decide]
    norm_num
  have c1 : coluna (filtroPl bppTot "CB") 2020 "2.08" = Fl.num 30000 := by
    rw [coluna, if_pos (show temConta (filtroPl bppTot "CB") "2.08" = true from by decide),
      celula, if_pos (show temRegistro (filtroPl bppTot "CB") 2020 "2.08" = true
        from by decide), s1]
  have c2 : coluna (filtroPl bppTot "CB") 2021 "2.08" = Fl.num 40000 := by
    rw [coluna, if_pos (show temConta (filtroPl bppTot "CB") "2.08" = true from by decide),
      celula, if_pos (show temRegistro (filtroPl bppTot "CB") 2021 "2.08" = true
        from by decide), s2]
  have c9 : ∀ y : Int, coluna (filtroPl bppTot "CB") y "2.08.09" = Fl.num 0 := by
    intro y
    rw [coluna, if_neg (show ¬ temConta (filtroPl bppTot "CB") "2.08.09" = true from by decide)]
  rw [extrair_pl]
  rw [show anosDe (filtroPl bppTot "CB") (fun r => r.anoRefer) = [2020, 2021] from by decide]
  rw [List.map_cons, List.map_cons, List.map_nil, c1, c2, c9 2020, c9 2021]
  norm_num [Fl.sub, Fl.add, Fl.neg]

/-- The ROE table of entity CA in the concrete batch: one surviving row. -/
theorem roeCAeval : calcular_roe (extrair_lucro dreTot "CA") (extrair_pl bppTot "CA")
    = [⟨2021, Fl.num 2000, Fl.num 20000, Fl.num 10000, Fl.num (1/5)⟩] := by
  rw [lucroCAeval, plCAeval]
  norm_num [calcular_roe, mergedRows, withShift, semNaN, List.find?, Fl.div, Fl.isNaN,
    List.filterMap, List.filter]

/-- The ROE table of entity CB in the concrete batch: one surviving row. -/
theorem roeCBeval : calcular_roe (extrair_lucro dreTot "CB") (extrair_pl bppTot "CB")
    = [⟨2021, Fl.num 4000, Fl.num 40000, Fl.num 30000, Fl.num (2/15)⟩] := by
  rw [lucroCBeval, plCBeval]
  norm_num [calcular_roe, mergedRows, withShift, semNaN, List.find?, Fl.div, Fl.isNaN,
    List.filterMap, List.filter]

/-- The per-entity loop propagates a beta failure as an uncaught error. -/
theorem processar_erro (dre : List DreRec) (bpp : List BppRec) (selic ibov : List (Int × Fl))
    (cot : String → List Cotacao) (b : Banco) (rest : List Banco)
    (h1 : calcular_roe (extrair_lucro dre b.cnpj) (extrair_pl bpp b.cnpj) ≠ [])
    (h2 : retornosAlinhados (cot b.ticker) = []) :
    processar dre bpp selic ibov cot (b :: rest)
      = Except.error "zero-size array to reduction operation" := by
  rw [processar, if_neg h1, calcular_beta, if_pos h2]

/-- The per-entity loop skips an entity exactly when its ROE table is empty. -/
theorem processar_pula (dre : List DreRec) (bpp : List BppRec) (selic ibov : List (Int × Fl))
    (cot : String → List Cotacao) (b : Banco) (rest : List Banco)
    (h1 : calcular_roe (extrair_lucro dre b.cnpj) (extrair_pl bpp b.cnpj) = []) :
    processar dre bpp selic ibov cot (b :: rest) = processar dre bpp selic ibov cot rest := by
  rw [processar, if_pos h1]

/-- Claim C5 counterexample: entity A has a valid ROE table but only one
month of quotes, so its aligned monthly return series is empty; the OLS step
raises and nothing catches it — the whole run ends with the uncaught
exception, entity A is not "skipped", and entity B (which is fully valid)
produces nothing either. -/
theorem beta_insuficiente_aborta_cex :
    mainRun discAB [2020] [⟨2021, 1⟩] [⟨2021, 100⟩] cotPorTicker
        [⟨"A", "TA", "CA"⟩, ⟨"B", "TB", "CB"⟩]
      = RunOutcome.fatal "zero-size array to reduction operation" := by
  have hp : processar dreTot bppTot (baixar_selic [⟨2021, 1⟩])
      (baixar_ibov_anual [⟨2021, 100⟩]) cotPorTicker [⟨"A", "TA", "CA"⟩, ⟨"B", "TB", "CB"⟩]
      = Except.error "zero-size array to reduction operation" := by
    refine processar_erro _ _ _ _ _ _ _ ?_ ?_
    · show calcular_roe (extrair_lucro dreTot "CA") (extrair_pl bppTot "CA") ≠ []
      rw [roeCAeval]
      simp
    · show retornosAlinhados (cotPorTicker "TA") = []
      decide
  rw [mainRun]
  rw [if_neg (show ¬ anosOkDe discAB [2020] = [] from by decide)]
  rw [show dreTotalDe discAB [2020] = dreTot from by decide]
  rw [show bppTotalDe discAB [2020] = bppTot from by decide]
  rw [hp]

/-- Claim C5, amended: an entity whose aligned monthly return series is empty
is NOT skipped — the beta estimation raises an uncaught exception that
aborts the per-entity loop, so no entity (including later valid ones)
produces output; the loop continues past an entity only when its ROE table
is empty. -/
theorem processar_beta_erro_propaga (dre : List DreRec) (bpp : List BppRec)
    (selic ibov : List (Int × Fl)) (cot : String → List Cotacao) (b : Banco)
    (rest : List Banco) :
    (calcular_roe (extrair_lucro dre b.cnpj) (extrair_pl bpp b.cnpj) ≠ [] →
      retornosAlinhados (cot b.ticker) = [] →
      processar dre bpp selic ibov cot (b :: rest)
        = Except.error "zero-size array to reduction operation") ∧
    (calcular_roe (extrair_lucro dre b.cnpj) (extrair_pl bpp b.cnpj) = [] →
      processar dre bpp selic ibov cot (b :: rest)
        = processar dre bpp selic ibov cot rest) :=
  ⟨fun h1 h2 => processar_erro dre bpp selic ibov cot b rest h1 h2,
   fun h1 => processar_pula dre bpp selic ibov cot b rest h1⟩

/-- Witness for C5-amended: both branches at concrete inputs — entity A with
one month of quotes makes the loop end in the numpy error; an entity with no
disclosure rows at all is skipped. -/
theorem processar_beta_erro_propaga_wit :
    (processar dreTot bppTot [] [] cotPorTicker [⟨"A", "TA", "CA"⟩]
      = Except.error "zero-size array to reduction operation") ∧
    (processar [] [] [] [] cotPorTicker [⟨"B", "TB", "CB"⟩]
      = processar [] [] [] [] cotPorTicker []) := by
  constructor
  · refine (processar_beta_erro_propaga dreTot bppTot [] [] cotPorTicker _ _).1 ?_ ?_
    · show calcular_roe (extrair_lucro dreTot "CA") (extrair_pl bppTot "CA") ≠ []
      rw [roeCAeval]
      simp
    · show retornosAlinhados (cotPorTicker "TA") = []
      decide
  · refine (processar_beta_erro_propaga [] [] [] [] cotPorTicker _ _).2 ?_
    show calcular_roe (extrair_lucro [] "CB") (extrair_pl [] "CB") = []
    decide

/-- Claim C7 counterexample: entity B survives the ROE stage and its beta is
computed, but its CAPM join with the 1999-only SELIC and IBOV tables is
empty, so zero valuation rows are produced — yet the entity still enters the
results map and the run writes the spreadsheet instead of aborting with a
fatal failure. -/
theorem mainRun_zero_linhas_planilha_cex :
    mainRun discAB [2020] [⟨1999, 1⟩] [⟨1999, 100⟩] cotPorTicker [⟨"B", "TB", "CB"⟩]
      = RunOutcome.planilha [("B", [])] := by
  have hbeta : calcular_beta (cotPorTicker "TB")
      = Except.ok (olsSlope (retornosAlinhados cotTres)) := by
    rw [show cotPorTicker "TB" = cotTres from by decide]
    rw [calcular_beta, if_neg (show ¬ retornosAlinhados cotTres = [] from by decide)]
  have hcapm : ∀ x : Fl, calcular_capm
      [⟨2021, Fl.num 4000, Fl.num 40000, Fl.num 30000, Fl.num (2/15)⟩]
      (baixar_selic [⟨1999, 1⟩]) (baixar_ibov_anual [⟨1999, 100⟩]) x = [] := fun x => rfl
  have hp : processar dreTot bppTot (baixar_selic [⟨1999, 1⟩])
      (baixar_ibov_anual [⟨1999, 100⟩]) cotPorTicker [⟨"B", "TB", "CB"⟩]
      = Except.ok [("B", [])] := by
    rw [processar]
    rw [if_neg (show ¬ calcular_roe (extrair_lucro dreTot "CB") (extrair_pl bppTot "CB") = []
      from by rw [roeCBeval]; simp)]
    rw [show calcular_beta (cotPorTicker "TB")
      = Except.ok (olsSlope (retornosAlinhados cotTres)) from hbeta]
    show Except.ok [("B", calcular_capm
      (calcular_roe (extrair_lucro dreTot "CB") (extrair_pl bppTot "CB"))
      (baixar_selic [⟨1999, 1⟩]) (baixar_ibov_anual [⟨1999, 100⟩])
      (Fl.num (olsSlope (retornosAlinhados cotTres))))] = Except.ok [("B", [])]
    rw [roeCBeval, hcapm]
  rw [mainRun]
  rw [if_neg (show ¬ anosOkDe discAB [2020] = [] from by decide)]
  rw [show dreTotalDe discAB [2020] = dreTot from by decide]
  rw [show bppTotalDe discAB [2020] = bppTot from by decide]
  rw [hp]

/-- Claim C7, amended: a run with no obtainable disclosure year aborts with
the RuntimeError "Nenhum ano da CVM foi baixado com sucesso." (in
particular when the source answers "unavailable" for every requested year);
a run whose per-entity results map comes out empty prints the terminal
"[ERRO]" message and writes no output.  However, an entity whose CAPM join
is empty still enters the results map with zero rows (see the
counterexample), so "zero entities produce a valuation" does not by itself
abort the run. -/
theorem mainRun_fatal_sem_dados (disclosure : Int → Option (List DreRec × List BppRec))
    (anos : List Int) (selicPts : List RatePoint) (ibovPts : List PricePoint)
    (cot : String → List Cotacao) (bancos : List Banco) :
    ((∀ a ∈ anos, disclosure a = none) →
      mainRun disclosure anos selicPts ibovPts cot bancos
        = RunOutcome.fatal "Nenhum ano da CVM foi baixado com sucesso.") ∧
    (anosOkDe disclosure anos ≠ [] →
      processar (dreTotalDe disclosure anos) (bppTotalDe disclosure anos)
          (baixar_selic selicPts) (baixar_ibov_anual ibovPts) cot bancos = Except.ok [] →
      mainRun disclosure anos selicPts ibovPts cot bancos = RunOutcome.semResultados) := by
  constructor
  · intro h
    have hfm : List.filterMap (fun a => Option.map (fun d => (a, d)) (disclosure a)) anos
        = [] := by
      rw [List.filterMap_eq_nil_iff]
      intro a ha
      rw [h a ha]
      rfl
    have hok : anosOkDe disclosure anos = [] := by
      rw [anosOkDe, baixados, hfm]
      rfl
    rw [mainRun, if_pos hok]
  · intro h1 h2
    rw [mainRun, if_neg h1, h2]

/-- Witness for C7-amended: an all-unavailable run is fatal; a run whose only
outcome is an empty results map (no entities configured) ends with the
"[ERRO]" exit. -/
theorem mainRun_fatal_sem_dados_wit :
    (mainRun (fun _ => none) [2010] [] [] cotPorTicker []
      = RunOutcome.fatal "Nenhum ano da CVM foi baixado com sucesso.") ∧
    (mainRun (fun _ => some ([], [])) [2010] [] [] cotPorTicker []
      = RunOutcome.semResultados) :=
  ⟨(mainRun_fatal_sem_dados _ _ _ _ _ _).1 (by intro a ha; rfl),
   (mainRun_fatal_sem_dados _ _ _ _ _ _).2 (by decide) (by rfl)⟩
